import Mathlib

/-!
Verification of the AD-MotionDirector training node (`nodes.py`).

The development shallowly embeds the parts of the code the claims are
about: the role-masking policy of the training loop, the decentered
temporal loss, the max-steps/epoch resolution, the per-step scaler and
learning-rate-scheduler event trace, the spatial random-frame draw, the
offset-noise sampler, the hardcoded process-local configuration, the
checkpoint/sample save behaviour, and the hflip branch of
`get_spatial_latents`.  Tensors are modelled as functions from finite
index tuples to real numbers; random draws are explicit parameters.
-/

namespace ADMD

/-! ### Role masking (nodes.py lines 542-547)

    if train_temporal_lora:
        mask_temporal_lora = False
    else:
        mask_temporal_lora = True
    mask_spatial_lora = random.uniform(0, 1) < 0.2 and not mask_temporal_lora

The uniform draw is modelled as a rational `u`. -/

def mask_temporal_lora (train_temporal_lora : Bool) : Bool :=
  !train_temporal_lora

def mask_spatial_lora (u : ℚ) (train_temporal_lora : Bool) : Bool :=
  decide (u < 0.2) && !(mask_temporal_lora train_temporal_lora)

/-! ### Tensors and the decentered temporal loss (nodes.py lines 235-252) -/

/-- A five-dimensional tensor of shape (b, c, f, h, w) with real entries. -/
def Tensor5 (b c f h w : ℕ) : Type :=
  Fin b → Fin c → Fin f → Fin h → Fin w → ℝ

/-- `F.mse_loss(x, y, reduction="mean")`: mean of squared entrywise
differences over all `b*c*f*h*w` positions. -/
noncomputable def mse_loss {b c f h w : ℕ} (x y : Tensor5 b c f h w) : ℝ :=
  (∑ i, ∑ j, ∑ k, ∑ l, ∑ m, (x i j k l m - y i j k l m) ^ 2) /
    ((b : ℝ) * c * f * h * w)

/-- `beta = 1` in `create_ad_temporal_loss`. -/
def beta : ℝ := 1

/-- `alpha = (beta ** 2 + 1) ** 0.5` in `create_ad_temporal_loss`. -/
noncomputable def alpha : ℝ := (beta ^ 2 + 1) ^ ((1 : ℝ) / 2)

/-- `create_ad_temporal_loss(model_pred, loss_temporal, target)` with the
random pivot `ran_idx` (drawn from `[0, model_pred.shape[2])`) made an
explicit argument.  `model_pred[:, :, ran_idx, :, :].unsqueeze(2)`
broadcasts the pivot frame across the frame axis. -/
noncomputable def create_ad_temporal_loss {b c f h w : ℕ}
    (model_pred : Tensor5 b c f h w) (loss_temporal : ℝ)
    (target : Tensor5 b c f h w) (ran_idx : Fin f) : ℝ :=
  let model_pred_decent : Tensor5 b c f h w :=
    fun i j k l m => alpha * model_pred i j k l m - beta * model_pred i j ran_idx l m
  let target_decent : Tensor5 b c f h w :=
    fun i j k l m => alpha * target i j k l m - beta * target i j ran_idx l m
  loss_temporal + mse_loss model_pred_decent target_decent

theorem mse_loss_self {b c f h w : ℕ} (x : Tensor5 b c f h w) :
    mse_loss x x = 0 := by
  simp [mse_loss]

/-- C1: in every training step, temporal is masked exactly when temporal
training is disabled; spatial is masked exactly when the uniform draw is
below 0.2 and temporal is not masked; hence for every draw the two masks
are never both true. -/
theorem c1_roles_never_both_masked (u : ℚ) (t : Bool) :
    (mask_temporal_lora t = true ↔ t = false) ∧
    (mask_spatial_lora u t = true ↔ (u < 0.2 ∧ mask_temporal_lora t = false)) ∧
    ¬(mask_spatial_lora u t = true ∧ mask_temporal_lora t = true) := by
  cases t <;> simp [mask_spatial_lora, mask_temporal_lora]

/-- C2: the decentered temporal loss uses `beta = 1` and
`alpha = sqrt(beta^2 + 1) = sqrt 2`, and whenever `model_pred = target`
the decentered term cancels at every pivot index, so
`create_ad_temporal_loss` returns its `loss_temporal` argument
unchanged. -/
theorem c2_decentered_loss_identity {b c f h w : ℕ}
    (model_pred target : Tensor5 b c f h w) (ran_idx : Fin f)
    (loss_temporal : ℝ) (hpt : model_pred = target) :
    beta = 1 ∧ alpha = Real.sqrt 2 ∧
    create_ad_temporal_loss model_pred loss_temporal target ran_idx = loss_temporal := by
  refine ⟨rfl, ?_, ?_⟩
  · rw [alpha, beta, Real.sqrt_eq_rpow]
    norm_num
  · subst hpt
    simp [create_ad_temporal_loss, mse_loss_self]

/-- A concrete 1×1×1×1×1 all-zero tensor, used to instantiate theorems. -/
def zeroTensor : Tensor5 1 1 1 1 1 := fun _ _ _ _ _ => 0

/-- C2 witness: the identity instantiated on a concrete 1×1×1×1×1 pair of
equal tensors. -/
theorem c2_decentered_loss_identity_witness :
    beta = 1 ∧ alpha = Real.sqrt 2 ∧
    create_ad_temporal_loss zeroTensor 5 zeroTensor (0 : Fin 1) = 5 :=
  c2_decentered_loss_identity zeroTensor zeroTensor 0 5 rfl

/-! ### Training-iteration resolution (nodes.py lines 408-415)

    if max_train_steps == -1:
        assert max_train_epoch != -1
        max_train_steps = max_train_epoch
    if checkpointing_steps == -1:
        assert checkpointing_epochs != -1
        checkpointing_steps = checkpointing_epochs

A failed `assert` raises `AssertionError` before training starts; this is
modelled as `Except.error`.  Note the code only reaches the assertion
when the first value is the sentinel `-1`. -/

def getTrainIteration (max_train_steps max_train_epoch : ℤ) : Except String ℤ :=
  if max_train_steps = -1 then
    if max_train_epoch = -1 then Except.error "AssertionError"
    else Except.ok max_train_epoch
  else Except.ok max_train_steps

def getCheckpointingSteps (checkpointing_steps checkpointing_epochs : ℤ) : Except String ℤ :=
  if checkpointing_steps = -1 then
    if checkpointing_epochs = -1 then Except.error "AssertionError"
    else Except.ok checkpointing_epochs
  else Except.ok checkpointing_steps

def isConfigError {α : Type} : Except String α → Bool
  | Except.error _ => true
  | Except.ok _ => false

/-! nodes.py lines 508-531 and 783-784: with
`num_update_steps_per_epoch = ceil(1)/1 = 1` the epoch count is
`num_train_epochs = ceil(max_train_steps / 1) = max_train_steps`,
`batch_size = 1`, and the inner loop increments `global_step` once per
epoch; the `break` leaves only the one-iteration inner loop, so the loop
body executes exactly `max_train_steps` times. -/

def batch_size : ℕ := 1

def num_train_epochs (max_train_steps : ℕ) : ℕ := max_train_steps

/-- The value of `global_step` after the training loop: one increment per
inner-loop iteration, `batch_size` iterations per epoch. -/
def trainLoopGlobalStep (max_train_steps : ℕ) : ℕ :=
  (List.range (num_train_epochs max_train_steps)).foldl
    (fun gs _ => (List.range batch_size).foldl (fun g _ => g + 1) gs) 0

theorem trainLoopGlobalStep_eq (n : ℕ) : trainLoopGlobalStep n = n := by
  have key : ∀ k a : ℕ,
      (List.range k).foldl
        (fun gs _ => (List.range batch_size).foldl (fun g _ => g + 1) gs) a = a + k := by
    intro k
    induction k with
    | zero => intro a; simp
    | succ k ih =>
        intro a
        rw [List.range_succ, List.foldl_append, ih]
        have h1 : List.range batch_size = [0] := rfl
        simp [h1]
        omega
  simpa [trainLoopGlobalStep, num_train_epochs] using key n 0

/-- C3 counterexample: with both options set to non-sentinel values
(`max_train_steps = 100`, `max_train_epoch = 300`) the code raises no
configuration error; it silently resolves to `max_train_steps`. -/
theorem c3_both_set_not_an_error :
    getTrainIteration 100 300 = Except.ok 100 ∧
    isConfigError (getTrainIteration 100 300) = false ∧
    getCheckpointingSteps 100 300 = Except.ok 100 := by
  refine ⟨rfl, rfl, rfl⟩

/-- C3 (amended): setting neither option (both `-1`) is a configuration
error that stops before training starts; when exactly one is set the
effective budget equals the non-sentinel value and the loop then runs
exactly that many steps; but when both are set there is no error —
`max_train_steps` takes precedence and `max_train_epoch` is ignored
(likewise `checkpointing_steps` over `checkpointing_epochs`). -/
theorem c3_step_budget_resolution (mts mte cs ce : ℤ) :
    (isConfigError (getTrainIteration (-1) (-1)) = true) ∧
    (mts ≠ -1 → getTrainIteration mts mte = Except.ok mts) ∧
    (mte ≠ -1 → getTrainIteration (-1) mte = Except.ok mte) ∧
    (isConfigError (getCheckpointingSteps (-1) (-1)) = true) ∧
    (cs ≠ -1 → getCheckpointingSteps cs ce = Except.ok cs) ∧
    (ce ≠ -1 → getCheckpointingSteps (-1) ce = Except.ok ce) ∧
    (∀ n : ℕ, trainLoopGlobalStep n = n) := by
  refine ⟨rfl, ?_, ?_, rfl, ?_, ?_, trainLoopGlobalStep_eq⟩
  · intro h; simp [getTrainIteration, h]
  · intro h; simp [getTrainIteration, h]
  · intro h; simp [getCheckpointingSteps, h]
  · intro h; simp [getCheckpointingSteps, h]

/-- C3 witness: the resolution evaluated at concrete configurations,
including the spec example `max_train_epoch = 300`, `max_train_steps = -1`
yielding a budget of exactly 300 loop steps. -/
theorem c3_step_budget_resolution_witness :
    getTrainIteration (-1) 300 = Except.ok 300 ∧
    getTrainIteration 100 300 = Except.ok 100 ∧
    getCheckpointingSteps 100 (-1) = Except.ok 100 ∧
    getCheckpointingSteps (-1) 50 = Except.ok 50 ∧
    trainLoopGlobalStep 300 = 300 :=
  ⟨(c3_step_budget_resolution 100 300 100 50).2.2.1 (by decide),
   (c3_step_budget_resolution 100 300 100 50).2.1 (by decide),
   (c3_step_budget_resolution 100 300 100 50).2.2.2.2.1 (by decide),
   (c3_step_budget_resolution 100 300 100 50).2.2.2.2.2.1 (by decide),
   (c3_step_budget_resolution 100 300 100 50).2.2.2.2.2.2 300⟩

/-! ### Per-step scaler and scheduler event trace (nodes.py lines 662-690)

One shared `GradScaler` serves both roles.  The backpropagation block is:

    if not mask_spatial_lora:
        scaler.scale(loss_spatial).backward(retain_graph=True)
        if spatial_lora_num == 1:
            scaler.step(optimizer_spatial_list[0])
        else:
            if any(... p.grad is not None ...):
                scaler.step(optimizer_spatial_list[step])
    if not mask_temporal_lora and train_temporal_lora:
        scaler.scale(loss_temporal).backward()
        scaler.step(optimizer_temporal)
    if spatial_lora_num == 1:
        lr_scheduler_spatial_list[0].step()
    else:
        lr_scheduler_spatial_list[step].step()
    if lr_scheduler_temporal is not None:
        lr_scheduler_temporal.step()
    scaler.update()

`lr_scheduler_temporal` is not `None` exactly when `train_temporal_lora`
(lines 456 and 466).  The trace records each operation on the shared
scaler and each scheduler step as an event. -/

inductive Role
  | spatial
  | temporal
deriving DecidableEq

inductive ScalerOp
  | scaleBackward (role : Role)
  | optStep (role : Role)
  | update
deriving DecidableEq

inductive StepEvent
  | scaler (op : ScalerOp)
  | schedulerStepSpatial (idx : ℕ)
  | schedulerStepTemporal
deriving DecidableEq

def training_step_events (mask_spatial mask_temporal train_temporal : Bool)
    (spatial_lora_num step : ℕ) (ensemble_member_has_grad : Bool) : List StepEvent :=
  (if mask_spatial then []
   else
     StepEvent.scaler (ScalerOp.scaleBackward Role.spatial) ::
       (if spatial_lora_num = 1 then [StepEvent.scaler (ScalerOp.optStep Role.spatial)]
        else if ensemble_member_has_grad then [StepEvent.scaler (ScalerOp.optStep Role.spatial)]
        else [])) ++
  (if !mask_temporal && train_temporal then
      [StepEvent.scaler (ScalerOp.scaleBackward Role.temporal),
       StepEvent.scaler (ScalerOp.optStep Role.temporal)]
   else []) ++
  (if spatial_lora_num = 1 then [StepEvent.schedulerStepSpatial 0]
   else [StepEvent.schedulerStepSpatial step]) ++
  (if train_temporal then [StepEvent.schedulerStepTemporal] else []) ++
  [StepEvent.scaler ScalerOp.update]

/-- C4: the shared gradient scaler's `update()` appears exactly once in
every training step's trace, whatever the masks, ensemble size, step
index and gradient availability — zero, one or two `scaler.step` calls
still yield exactly one `update`; and when both roles are active, the
trace contains a backward pass through the shared scaler for each role. -/
theorem c4_scaler_update_once_per_step (ms mt tt : Bool)
    (spatial_lora_num step : ℕ) (hg : Bool) :
    (training_step_events ms mt tt spatial_lora_num step hg).count
        (StepEvent.scaler ScalerOp.update) = 1 ∧
    (ms = false → mt = false → tt = true →
      StepEvent.scaler (ScalerOp.scaleBackward Role.spatial) ∈
          training_step_events ms mt tt spatial_lora_num step hg ∧
      StepEvent.scaler (ScalerOp.scaleBackward Role.temporal) ∈
          training_step_events ms mt tt spatial_lora_num step hg) := by
  constructor
  · unfold training_step_events
    cases ms <;> cases mt <;> cases tt <;>
      by_cases h : spatial_lora_num = 1 <;> cases hg <;>
      simp [h, List.count_append, List.count_cons]
  · intro h1 h2 h3
    subst h1; subst h2; subst h3
    unfold training_step_events
    by_cases h : spatial_lora_num = 1 <;> cases hg <;> simp [h]

/-- C4 witness: concrete traces with both roles active and with both
roles' backward passes skipped still contain exactly one `update`. -/
theorem c4_scaler_update_once_per_step_witness :
    (training_step_events false false true 1 0 false).count
        (StepEvent.scaler ScalerOp.update) = 1 ∧
    StepEvent.scaler (ScalerOp.scaleBackward Role.spatial) ∈
        training_step_events false false true 1 0 false ∧
    StepEvent.scaler (ScalerOp.scaleBackward Role.temporal) ∈
        training_step_events false false true 1 0 false :=
  ⟨(c4_scaler_update_once_per_step false false true 1 0 false).1,
   (c4_scaler_update_once_per_step false false true 1 0 false).2 rfl rfl rfl⟩

/-! ### A run of the training loop (nodes.py lines 528-693)

In the node's hardcoded configuration `single_spatial_lora = True`, so
`spatial_lora_num = 1`, and `batch_size = 1`, so the inner `step` index
is always 0.  Each loop iteration draws a fresh uniform `u` for the
spatial mask; temporal masking is the static policy. -/

def training_run_events (train_temporal : Bool) (u : ℕ → ℚ) : ℕ → List StepEvent
  | 0 => []
  | n + 1 =>
      training_run_events train_temporal u n ++
        training_step_events (mask_spatial_lora (u n) train_temporal)
          (mask_temporal_lora train_temporal) train_temporal 1 0 false

theorem count_schedulerStepSpatial_step (ms mt tt : Bool) (hg : Bool) :
    (training_step_events ms mt tt 1 0 hg).count (StepEvent.schedulerStepSpatial 0) = 1 := by
  unfold training_step_events
  cases ms <;> cases mt <;> cases tt <;> cases hg <;>
    simp [List.count_append, List.count_cons]

theorem count_schedulerStepTemporal_step (ms mt tt : Bool) (hg : Bool) :
    (training_step_events ms mt tt 1 0 hg).count StepEvent.schedulerStepTemporal
      = if tt then 1 else 0 := by
  unfold training_step_events
  cases ms <;> cases mt <;> cases tt <;> cases hg <;>
    simp [List.count_append, List.count_cons]

/-- C5: learning-rate schedules advance unconditionally on every loop
iteration, masked or not: after `n` steps the spatial schedule has been
stepped exactly `n` times, and so has the temporal schedule whenever
temporal training is enabled, for every sequence of masking draws. -/
theorem c5_schedulers_advance_every_step (tt : Bool) (u : ℕ → ℚ) (n : ℕ) :
    (training_run_events tt u n).count (StepEvent.schedulerStepSpatial 0) = n ∧
    (tt = true → (training_run_events tt u n).count StepEvent.schedulerStepTemporal = n) := by
  induction n with
  | zero => simp [training_run_events]
  | succ n ih =>
      constructor
      · rw [training_run_events, List.count_append, ih.1,
          count_schedulerStepSpatial_step]
      · intro h
        rw [training_run_events, List.count_append, ih.2 h,
          count_schedulerStepTemporal_step, h]
        simp

/-- C5 witness: a concrete 3-step run with temporal training enabled and
a fixed draw sequence steps each schedule exactly 3 times. -/
theorem c5_schedulers_advance_every_step_witness :
    (training_run_events true (fun _ => 1/2) 3).count (StepEvent.schedulerStepSpatial 0) = 3 ∧
    (training_run_events true (fun _ => 1/2) 3).count StepEvent.schedulerStepTemporal = 3 :=
  ⟨(c5_schedulers_advance_every_step true (fun _ => 1/2) 3).1,
   (c5_schedulers_advance_every_step true (fun _ => 1/2) 3).2 rfl⟩

/-! ### Hardcoded process-local configuration (nodes.py lines 303-342)

`process` receives `lora_rank` as a node input (INPUT_TYPES line 273,
default 32, min 8, max 4096) but then assigns a block of local
constants, among them `lora_rank = 32` (line 326), which shadows the
input before any use.  Both LoRA injections (lines 443-445 and 480-482)
pass `r=lora_rank`, i.e. the local value. -/

structure ProcessLocals where
  random_hflip_img : ℚ
  single_spatial_lora : Bool
  lora_rank : ℤ
  train_temporal_lora : Bool
  cache_latents : Bool
  use_offset_noise : Bool
deriving DecidableEq

def process_locals (lora_rank_input : ℤ) : ProcessLocals :=
  { random_hflip_img := -1
    single_spatial_lora := true
    lora_rank := 32
    train_temporal_lora := true
    cache_latents := false
    use_offset_noise := false }

/-- Rank passed as `r` to `add_lora_to_model` for the temporal handler
(nodes.py line 445). -/
def temporal_lora_injection_rank (lora_rank_input : ℤ) : ℤ :=
  (process_locals lora_rank_input).lora_rank

/-- Rank passed as `r` to `add_lora_to_model` for the spatial handler
(nodes.py line 482). -/
def spatial_lora_injection_rank (lora_rank_input : ℤ) : ℤ :=
  (process_locals lora_rank_input).lora_rank

/-- C8: the node's `lora_rank` input is shadowed by the hardcoded local
`lora_rank = 32`, so both injections always use rank 32 whatever the
input; at the failing input 64 the injected rank is 32, not 64. -/
theorem c8_lora_rank_input_ignored (lora_rank_input : ℤ) :
    spatial_lora_injection_rank lora_rank_input = 32 ∧
    temporal_lora_injection_rank lora_rank_input = 32 ∧
    spatial_lora_injection_rank 64 ≠ 64 ∧
    temporal_lora_injection_rank 64 ≠ 64 := by
  refine ⟨rfl, rfl, by decide, by decide⟩

/-! ### Tensor layout and the spatial random-frame draw
(nodes.py lines 290-293 and 198-233)

    images = images * 2.0 - 1.0
    pixel_values = images.clone().requires_grad_(True)
    pixel_values = pixel_values.permute(0, 3, 1, 2).unsqueeze(0)  #B,H,W,C to B,F,C,H,W

ComfyUI image batches have shape (B, H, W, C); `permute(0, 3, 1, 2)`
gives (B, C, H, W) and `unsqueeze(0)` gives (1, B, C, H, W) — per the
code's own comment, a clip of layout (batch, frames, channels, height,
width) whose frame count is the original image-batch size.
`get_spatial_latents` then draws

    ran_idx = torch.randint(0, pixel_values.shape[2], (1,)).item()

whose upper bound is dimension 2 of this layout: the channel count, not
the frame count (the hflip branch on line 215 itself indexes frames at
dimension 1 when `cache_latents` is false). -/

structure Shape5 where
  d0 : ℕ
  d1 : ℕ
  d2 : ℕ
  d3 : ℕ
  d4 : ℕ
deriving DecidableEq

/-- Shape of `pixel_values` as constructed in `process` from an image
batch of shape (B, H, W, C). -/
def process_pixel_values_shape (imgB imgH imgW imgC : ℕ) : Shape5 :=
  ⟨1, imgB, imgC, imgH, imgW⟩

/-- Frame count of the constructed clip under the (B, F, C, H, W) layout
of the code's comment: dimension 1. -/
def clip_frame_count (pixel_values : Shape5) : ℕ := pixel_values.d1

/-- Exclusive upper bound of the `ran_idx` draw in `get_spatial_latents`:
`pixel_values.shape[2]`. -/
def ran_idx_upper_bound (pixel_values : Shape5) : ℕ := pixel_values.d2

/-- C6: for a 16-frame RGB clip of 32×48 images, the `randint` upper
bound in `get_spatial_latents` is `pixel_values.shape[2] = 3` (the
channel axis), not the clip's frame count 16 — the random frame index
is not drawn uniformly from `[0, number_of_frames)`. -/
theorem c6_ran_idx_bound_is_channel_count :
    ran_idx_upper_bound (process_pixel_values_shape 16 32 48 3) = 3 ∧
    clip_frame_count (process_pixel_values_shape 16 32 48 3) = 16 ∧
    ran_idx_upper_bound (process_pixel_values_shape 16 32 48 3) ≠
      clip_frame_count (process_pixel_values_shape 16 32 48 3) := by
  refine ⟨rfl, rfl, by decide⟩

/-! ### Offset noise (nodes.py lines 108-116 and 586-589)

    def sample_noise(latents, noise_strength, use_offset_noise=False):
        b, c, f, *_ = latents.shape
        noise_latents = torch.randn_like(latents, device=latents.device)
        if use_offset_noise:
            offset_noise = torch.randn(b, c, f, 1, 1, device=latents.device)
            noise_latents = noise_latents + noise_strength * offset_noise
        return noise_latents

The Gaussian draws `randn_like` and `randn(b, c, f, 1, 1)` are explicit
parameters; the (b, c, f, 1, 1) offset broadcasts over h and w.  The
training loop calls `sample_noise(latents, 0, use_offset_noise=use_offset_noise)`
with the literal `noise_strength = 0`. -/

def sample_noise {b c f h w : ℕ} (noise_latents_draw : Tensor5 b c f h w)
    (offset_noise_draw : Fin b → Fin c → Fin f → ℝ)
    (noise_strength : ℝ) (use_offset_noise : Bool) : Tensor5 b c f h w :=
  if use_offset_noise then
    fun i j k l m => noise_latents_draw i j k l m + noise_strength * offset_noise_draw i j k
  else noise_latents_draw

/-- The `noise_strength` literal passed by the training loop (line 588). -/
def loop_noise_strength : ℝ := 0

/-- A concrete 1×1×1×1×1 Gaussian draw used to instantiate theorems. -/
def gaussTensor : Tensor5 1 1 1 1 1 := fun _ _ _ _ _ => 3

/-- A concrete nonzero 1×1×1 offset draw used to instantiate theorems. -/
def offsetDraw : Fin 1 → Fin 1 → Fin 1 → ℝ := fun _ _ _ => 5

/-- C7 counterexample: in the training loop `noise_strength = 0`, so even
with the offset-noise toggle enabled and a nonzero offset draw the
returned noise equals the plain Gaussian sample — the bias contribution
is zero despite the offset draw being nonzero. -/
theorem c7_offset_noise_toggle_inert :
    sample_noise gaussTensor offsetDraw loop_noise_strength true = gaussTensor ∧
    offsetDraw 0 0 0 ≠ 0 := by
  constructor
  · funext i j k l m
    simp [sample_noise, loop_noise_strength, gaussTensor]
  · simp [offsetDraw]

/-- C7 (amended): with the toggle enabled `sample_noise` adds the
per-frame-constant bias `noise_strength * offset` (constant across the
two spatial axes) to the Gaussian draw; but the training loop hardcodes
`noise_strength = 0`, so there the toggle never changes the sampled
noise: for every toggle value and every draw the loop's noise equals the
plain Gaussian sample. -/
theorem c7_offset_noise_bias (b c f h w : ℕ) (g : Tensor5 b c f h w)
    (o : Fin b → Fin c → Fin f → ℝ) (s : ℝ) (tog : Bool) :
    (sample_noise g o s true =
      fun i j k l m => g i j k l m + s * o i j k) ∧
    (sample_noise g o loop_noise_strength tog = g) := by
  constructor
  · rfl
  · cases tog
    · rfl
    · funext i j k l m
      simp [sample_noise, loop_noise_strength]

/-! ### The hflip branch of get_spatial_latents (nodes.py lines 198-233)

    ran_idx = torch.randint(0, pixel_values.shape[2], (1,)).item()
    use_hflip = random.uniform(0, 1) < random_hflip_img
    if use_hflip:
        pixel_values_spatial = torchvision...hflip(...)
        latents_spatial = (
            tensor_to_vae_latent(pixel_values_spatial, vae) if not cache_latents
            else pixel_values_spatial
        )
        ...
    else:
        noisy_latents_input = noisy_latents[:, :, ran_idx, :, :]
        target_spatial = target[:, :, ran_idx, :, :]

The name `vae` is not bound in `get_spatial_latents` (it is neither a
parameter nor a module global), so evaluating the hflip branch with
`cache_latents` false raises a `NameError`.  The control path is
modelled as a value: which branch runs and, in the shared path, the
frame index at which the noised latents and target are sliced. -/

inductive SpatialPath
  | hflipFresh
  | sharedSlice (ran_idx : ℕ)
deriving DecidableEq

def get_spatial_latents_path (ran_idx : ℕ) (u : ℚ) (random_hflip_img : ℚ)
    (cache_latents : Bool) : Except String SpatialPath :=
  let use_hflip := decide (u < random_hflip_img)
  if use_hflip then
    if cache_latents then Except.ok SpatialPath.hflipFresh
    else Except.error "NameError: name vae is not defined"
  else Except.ok (SpatialPath.sharedSlice ran_idx)

/-- C10: `process` hardcodes `random_hflip_img = -1`, so for every
uniform draw in [0, 1] `use_hflip` is false and `get_spatial_latents`
always takes the shared-noise slicing path; the hflip branch — which
with `cache_latents` false (also hardcoded) reads the undefined name
`vae` — is unreachable, though reachable in isolation under a positive
hflip probability. -/
theorem c10_hflip_branch_unreachable (lora_rank_input : ℤ) (ran_idx : ℕ)
    (u : ℚ) (hu : 0 ≤ u) :
    (process_locals lora_rank_input).random_hflip_img = -1 ∧
    ¬(u < (process_locals lora_rank_input).random_hflip_img) ∧
    get_spatial_latents_path ran_idx u
        (process_locals lora_rank_input).random_hflip_img
        (process_locals lora_rank_input).cache_latents
      = Except.ok (SpatialPath.sharedSlice ran_idx) ∧
    get_spatial_latents_path ran_idx 0 1 false
      = Except.error "NameError: name vae is not defined" := by
  have hlt : ¬(u < (-1 : ℚ)) := by
    intro h
    exact absurd (lt_of_le_of_lt hu h) (by norm_num)
  refine ⟨rfl, ?_, ?_, rfl⟩
  · simpa [process_locals] using hlt
  · simp only [process_locals, get_spatial_latents_path]
    simp [hlt]

/-- C10 witness: the unreachability at the concrete draw 1/2 and node
input 32. -/
theorem c10_hflip_branch_unreachable_witness :
    (process_locals 32).random_hflip_img = -1 ∧
    ¬((1/2 : ℚ) < (process_locals 32).random_hflip_img) ∧
    get_spatial_latents_path 0 (1/2) (process_locals 32).random_hflip_img
        (process_locals 32).cache_latents
      = Except.ok (SpatialPath.sharedSlice 0) ∧
    get_spatial_latents_path 0 0 1 false
      = Except.error "NameError: name vae is not defined" :=
  c10_hflip_branch_unreachable 32 0 (1/2) (by norm_num)

/-! ### Checkpoint and sample saves (nodes.py lines 695-722 and 724-770)

    if global_step % checkpointing_steps == 0:
        ...
        lora_manager_spatial.save_lora_weights(...)
        ...
    if (global_step % validation_steps == 0 or global_step in validation_steps_tuple):
        ...
        save_videos_grid(sample, f"...sample-\x7bglobal_step\x7d.gif")
        ...

Neither block is wrapped in any `try`/`except`: a Python exception
raised by a save call propagates out of the training loop and terminates
`process`.  The saves are modelled as `Except`-valued calls whose
outcome is given by oracles `ckpt_raises`/`sample_raises` indexed by the
global step, and the loop as an exception-propagating recursion. -/

def save_artifact_result (raises : Bool) : Except String Unit :=
  if raises then Except.error "IOError" else Except.ok ()

def training_loop_with_saves (checkpointing_steps validation_steps : ℕ)
    (validation_steps_tuple : List ℕ)
    (ckpt_raises sample_raises : ℕ → Bool) : ℕ → ℕ → Except String ℕ
  | 0, global_step => Except.ok global_step
  | k + 1, global_step =>
      let gs := global_step + 1
      match (if gs % checkpointing_steps = 0 then save_artifact_result (ckpt_raises gs)
             else Except.ok ()) with
      | Except.error e => Except.error e
      | Except.ok _ =>
          match (if gs % validation_steps = 0 ∨ gs ∈ validation_steps_tuple then
                   save_artifact_result (sample_raises gs)
                 else Except.ok ()) with
          | Except.error e => Except.error e
          | Except.ok _ =>
              training_loop_with_saves checkpointing_steps validation_steps
                validation_steps_tuple ckpt_raises sample_raises k gs

/-- C9 counterexample: a 5-step run with checkpoint cadence 2 whose save
raises at global step 2 terminates with the I/O error instead of
completing the remaining steps — the failure aborts the run, it is not
logged-and-skipped. -/
theorem c9_save_failure_aborts_run :
    training_loop_with_saves 2 25 [2, 25] (fun s => decide (s = 2)) (fun _ => false) 5 0
      = Except.error "IOError" ∧
    training_loop_with_saves 2 25 [2, 25] (fun s => decide (s = 2)) (fun _ => false) 5 0
      ≠ Except.ok 5 :=
  ⟨rfl, fun h => nomatch h⟩

/-- C9 (amended): the training loop installs no exception handler around
its save calls: if the next step's checkpoint save raises — or its
checkpoint save succeeds but its validation-sample save raises — the run
terminates immediately with the error, whatever budget remains; the loop
completes all `k` steps exactly when no reached save call raises, e.g.
when the oracles never raise. -/
theorem c9_save_exception_propagates (cs vs : ℕ) (vt : List ℕ)
    (cr sr : ℕ → Bool) :
    (∀ k gs, (∀ s, cr s = false) → (∀ s, sr s = false) →
      training_loop_with_saves cs vs vt cr sr k gs = Except.ok (gs + k)) ∧
    (∀ k gs, (gs + 1) % cs = 0 → cr (gs + 1) = true →
      training_loop_with_saves cs vs vt cr sr (k + 1) gs = Except.error "IOError") ∧
    (∀ k gs, ((gs + 1) % cs = 0 → cr (gs + 1) = false) →
      ((gs + 1) % vs = 0 ∨ (gs + 1) ∈ vt) → sr (gs + 1) = true →
      training_loop_with_saves cs vs vt cr sr (k + 1) gs = Except.error "IOError") := by
    refine ⟨?_, ?_, ?_⟩
    · intro k
      induction k with
      | zero => intro gs _ _; simp [training_loop_with_saves]
      | succ k ih =>
          intro gs hc hs
          rw [training_loop_with_saves]
          have h1 : (if (gs + 1) % cs = 0 then save_artifact_result (cr (gs + 1))
              else Except.ok ()) = Except.ok () := by
            split <;> simp [save_artifact_result, hc]
          have h2 : (if (gs + 1) % vs = 0 ∨ (gs + 1) ∈ vt then
                save_artifact_result (sr (gs + 1))
              else Except.ok ()) = Except.ok () := by
            split <;> simp [save_artifact_result, hs]
          rw [h1, h2]
          show training_loop_with_saves cs vs vt cr sr k (gs + 1) = Except.ok (gs + (k + 1))
          rw [ih (gs + 1) hc hs]
          have harr : gs + 1 + k = gs + (k + 1) := by omega
          rw [harr]
    · intro k gs hmod hraise
      rw [training_loop_with_saves]
      simp [hmod, hraise, save_artifact_result]
    · intro k gs hcok hval hraise
      rw [training_loop_with_saves]
      have h1 : (if (gs + 1) % cs = 0 then save_artifact_result (cr (gs + 1))
          else Except.ok ()) = Except.ok () := by
        split
        · simp [save_artifact_result, hcok (by assumption)]
        · rfl
      rw [h1]
      simp [hval, hraise, save_artifact_result]

/-- C9 witness: the propagation statement instantiated on concrete runs —
a clean 5-step run completes, a checkpoint-save failure at step 2 aborts,
and a validation-sample-save failure at step 2 aborts. -/
theorem c9_save_exception_propagates_witness :
    training_loop_with_saves 2 25 [2, 25] (fun _ => false) (fun _ => false) 5 0
      = Except.ok 5 ∧
    training_loop_with_saves 2 25 [2, 25] (fun _ => true) (fun _ => false) 4 1
      = Except.error "IOError" ∧
    training_loop_with_saves 3 25 [2, 25] (fun _ => false) (fun _ => true) 4 1
      = Except.error "IOError" :=
  ⟨(c9_save_exception_propagates 2 25 [2, 25] (fun _ => false) (fun _ => false)).1
      5 0 (fun _ => rfl) (fun _ => rfl),
   (c9_save_exception_propagates 2 25 [2, 25] (fun _ => true) (fun _ => false)).2.1
      3 1 (by decide) rfl,
   (c9_save_exception_propagates 3 25 [2, 25] (fun _ => false) (fun _ => true)).2.2
      3 1 (fun _ => rfl) (by decide) rfl⟩

end ADMD
